import Mathlib

/-!
# Verification of the Git Worktree Manager

Shallow embedding of `src/git/worktree_manager.py` (`GitWorktreeManager`):
the worktree registry (SQLite table `worktrees`, modelled as a list of rows),
the lifecycle operations (`create_worktree`, `remove_worktree`,
`list_worktrees`, `update_last_active`, `cleanup_stale_worktrees`) and the
conflict detector (`detect_conflicts` over `git merge-tree` output).

Modelling decisions:
* Timestamps (`datetime` objects / ISO-8601 strings in the source) are `Int`
  seconds since an epoch; ISO-8601 UTC strings of a fixed format order
  exactly like the instants they denote, and `(now - last).total_seconds()`
  is the integer difference.
* `subprocess.run` calls to git are an external environment `VcsEnv` mapping
  each invocation to its outcome (`VcsResult`), and each operation also
  returns the list of external calls it performed (`ExtCall`), so that
  "performs no external service invocation" is observable.
* Python exceptions become `Except WtError`.  `ValueError` raised on a
  duplicate agent is `WtError.alreadyExists`, `ValueError` raised on a
  missing agent is `WtError.notFound`, and a re-raised
  `subprocess.CalledProcessError` (carrying the tool's stderr text) is
  `WtError.vcsError` — the spec's `AlreadyExistsError` / `NotFoundError` /
  `VcsOperationError` taxonomy.
* Paths are strings; `worktree_base_dir / f"worktree-{agent_id}"` is string
  concatenation with a `/` separator.
-/

/-- A row of the `worktrees` table / the `WorktreeInfo` dataclass. -/
structure WorktreeInfo where
  agent_id : String
  path : String
  branch : String
  created_at : Int
  last_active : Int
  status : String
deriving DecidableEq, Repr

/-- The `ConflictFile` dataclass: one file with merge conflicts.  The three
version fields default to `none` exactly as the Python dataclass defaults
them to `None`. -/
structure ConflictFile where
  path : String
  conflict_type : String
  our_version : Option String := none
  their_version : Option String := none
  base_version : Option String := none
deriving DecidableEq, Repr

/-- Errors raised by the manager.  `alreadyExists` carries the agent id and
the existing record's path (the source's
`ValueError(f"Worktree already exists for agent {agent_id}: {existing.path}")`);
`notFound` carries the agent id; `vcsError` carries the external tool's
diagnostic text (`subprocess.CalledProcessError.stderr`). -/
inductive WtError where
  | alreadyExists (agent_id : String) (path : String)
  | notFound (agent_id : String)
  | vcsError (diagnostic : String)
deriving DecidableEq, Repr

/-- The outcome of one external git invocation. -/
inductive VcsResult where
  | ok
  | fail (diagnostic : String)
deriving DecidableEq, Repr

/-- Trace entry: one external git invocation actually performed. -/
inductive ExtCall where
  | addWorktreeCall (path branch base : String)
  | removeWorktreeCall (path : String) (force : Bool)
  | deleteBranchCall (branch : String)
  | mergeTreeCall (target source : String)
deriving DecidableEq, Repr

/-- The external versioned-storage service: what each git subprocess would
return.  `merge_tree` yields `(returncode, stdout)` of
`git merge-tree target source`. -/
structure VcsEnv where
  add_worktree : String → String → String → VcsResult
  rem_worktree : String → Bool → VcsResult
  delete_branch : String → VcsResult
  merge_tree : String → String → Int × String

/-- The registry: the rows of the SQLite `worktrees` table, in insertion
order (`agent_id` is the primary key, so well-formed states have pairwise
distinct `agent_id`s). -/
abbrev Registry := List WorktreeInfo

/-- `_get_worktree`: `SELECT ... WHERE agent_id = ?` + `fetchone()` —
the first row with this `agent_id`, if any. -/
def get_worktree (db : Registry) (agent_id : String) : Option WorktreeInfo :=
  db.find? (fun r => r.agent_id == agent_id)

/-- `list_worktrees`: `SELECT ... ORDER BY created_at DESC`.  Modelled as an
insertion sort by descending `created_at` (any stable order among ties is a
faithful model of SQLite's unspecified tie order). -/
def list_worktrees (db : Registry) : List WorktreeInfo :=
  db.insertionSort (fun a b => b.created_at ≤ a.created_at)

/-- `create_worktree`: precondition check, path/branch derivation, external
`git worktree add`, and on success an `INSERT` of the new row with
`created_at = last_active = now`, `status = "active"`.  Returns the result,
the registry afterwards, and the external calls performed. -/
def create_worktree (env : VcsEnv) (worktree_base_dir : String) (db : Registry)
    (now : Int) (agent_id : String) (base_branch : String) :
    Except WtError String × Registry × List ExtCall :=
  match get_worktree db agent_id with
  | some existing => (.error (.alreadyExists agent_id existing.path), db, [])
  | none =>
    let worktree_path := worktree_base_dir ++ "/worktree-" ++ agent_id
    let branch_name := "agent-" ++ agent_id
    match env.add_worktree worktree_path branch_name base_branch with
    | .fail diag =>
      (.error (.vcsError diag), db,
        [.addWorktreeCall worktree_path branch_name base_branch])
    | .ok =>
      let record : WorktreeInfo :=
        { agent_id := agent_id, path := worktree_path, branch := branch_name,
          created_at := now, last_active := now, status := "active" }
      (.ok worktree_path, db ++ [record],
        [.addWorktreeCall worktree_path branch_name base_branch])

/-- `remove_worktree`: precondition check, external `git worktree remove`
(with `--force` when asked) then `git branch -D`, and on success a
`DELETE FROM worktrees WHERE agent_id = ?`.  Returns the result, the
registry afterwards, and the external calls performed. -/
def remove_worktree (env : VcsEnv) (db : Registry) (agent_id : String)
    (force : Bool) : Except WtError Unit × Registry × List ExtCall :=
  match get_worktree db agent_id with
  | none => (.error (.notFound agent_id), db, [])
  | some worktree =>
    match env.rem_worktree worktree.path force with
    | .fail diag =>
      (.error (.vcsError diag), db, [.removeWorktreeCall worktree.path force])
    | .ok =>
      match env.delete_branch worktree.branch with
      | .fail diag =>
        (.error (.vcsError diag), db,
          [.removeWorktreeCall worktree.path force,
           .deleteBranchCall worktree.branch])
      | .ok =>
        (.ok (), db.filter (fun r => !(r.agent_id == agent_id)),
          [.removeWorktreeCall worktree.path force,
           .deleteBranchCall worktree.branch])

/-- `update_last_active`: `UPDATE worktrees SET last_active = ? WHERE
agent_id = ?` with the current time — sets `last_active` on every matching
row (none match for an unknown agent; no exception either way). -/
def update_last_active (db : Registry) (now : Int) (agent_id : String) :
    Registry :=
  db.map (fun r =>
    if r.agent_id == agent_id then { r with last_active := now } else r)

/-- Helper for Python's argumentless `str.split()`: walk the characters,
accumulating the current token (reversed) and emitting it at each
whitespace boundary; empty tokens are never emitted. -/
def splitWsAux (cur : List Char) : List Char → List (List Char)
  | [] => if cur.isEmpty then [] else [cur.reverse]
  | c :: rest =>
    if c.isWhitespace then
      if cur.isEmpty then splitWsAux [] rest
      else cur.reverse :: splitWsAux [] rest
    else splitWsAux (c :: cur) rest

/-- Python's argumentless `str.split()`: split on whitespace runs, dropping
empty pieces. -/
def pySplit (s : String) : List String :=
  (splitWsAux [] s.data).map String.mk

/-- Helper for Python's `str.split("\n")`: split at every newline, keeping
empty pieces (one piece more than there are newlines). -/
def splitNlAux (cur : List Char) : List Char → List (List Char)
  | [] => [cur.reverse]
  | c :: rest =>
    if c = '\n' then cur.reverse :: splitNlAux [] rest
    else splitNlAux (c :: cur) rest

/-- Python's `str.split("\n")`. -/
def pySplitLines (s : String) : List String :=
  (splitNlAux [] s.data).map String.mk

/-- Python's `str.startswith(pat)`. -/
def strStartsWith (s pat : String) : Bool :=
  pat.data.isPrefixOf s.data

/-- Python's `str.lower()` (ASCII case folding, which covers the git
output scanned here). -/
def strToLower (s : String) : String :=
  String.mk (s.data.map Char.toLower)

/-- Whether `pat` occurs as a contiguous subsequence of `l`
(Python's `pat in s` on strings, over the character lists). -/
def containsSub (pat : List Char) : List Char → Bool
  | [] => pat.isEmpty
  | c :: rest => pat.isPrefixOf (c :: rest) || containsSub pat rest

/-- Python's `pat in s` substring test. -/
def strContains (s pat : String) : Bool :=
  containsSub pat.data s.data

/-- The conflict-classification gate of `detect_conflicts`:
`result.returncode != 0 or "conflict" in result.stdout.lower()`. -/
def hasConflictSignal (returncode : Int) (stdout : String) : Bool :=
  returncode != 0 || strContains (strToLower stdout) "conflict"

/-- One iteration of the parsing loop of `detect_conflicts`: a line
starting with `"changed in both"` whose whitespace split has at least 4
parts yields a `ConflictFile` whose `path` is the last part and whose
`conflict_type` is `"content"` (version fields left at their `None`
defaults); any other line yields nothing. -/
def changedInBothFile (line : String) : Option ConflictFile :=
  if strStartsWith line "changed in both" then
    let parts := pySplit line
    if parts.length ≥ 4 then
      some { path := parts.getLastD "", conflict_type := "content" }
    else none
  else none

/-- The pure part of `detect_conflicts` applied to the dry-run report
`(returncode, stdout)` of `git merge-tree`: if the gate fires, scan
`stdout.split("\n")` with the parsing loop; otherwise no conflicts. -/
def parseConflicts (returncode : Int) (stdout : String) : List ConflictFile :=
  if hasConflictSignal returncode stdout then
    (pySplitLines stdout).filterMap changedInBothFile
  else []

/-- `detect_conflicts`: precondition check, external
`git merge-tree target_branch worktree.branch` (run with `check=False`, so
a nonzero exit does not raise), then the textual scan.  Never mutates the
registry, so only the result and the trace are returned. -/
def detect_conflicts (env : VcsEnv) (db : Registry) (agent_id : String)
    (target_branch : String) :
    Except WtError (List ConflictFile) × List ExtCall :=
  match get_worktree db agent_id with
  | none => (.error (.notFound agent_id), [])
  | some worktree =>
    let res := env.merge_tree target_branch worktree.branch
    (.ok (parseConflicts res.1 res.2),
      [.mergeTreeCall target_branch worktree.branch])

/-- The staleness test of `cleanup_stale_worktrees`:
`(now - wt.last_active).total_seconds() / 60 > stale_threshold_minutes`,
i.e. (in exact arithmetic) `now - last_active > 60 * threshold` seconds. -/
def isStale (now stale_threshold_minutes : Int) (wt : WorktreeInfo) : Bool :=
  60 * stale_threshold_minutes < now - wt.last_active

/-- The loop body of `cleanup_stale_worktrees`: walk the listed records;
force-remove each stale one, counting successes and swallowing (logging)
failures. -/
def cleanupLoop (env : VcsEnv) (now stale_threshold_minutes : Int) :
    List WorktreeInfo → Registry → Nat → Nat × Registry
  | [], db, cleaned => (cleaned, db)
  | wt :: rest, db, cleaned =>
    if isStale now stale_threshold_minutes wt then
      match remove_worktree env db wt.agent_id true with
      | (.ok _, db', _) =>
        cleanupLoop env now stale_threshold_minutes rest db' (cleaned + 1)
      | (.error _, db', _) =>
        cleanupLoop env now stale_threshold_minutes rest db' cleaned
    else cleanupLoop env now stale_threshold_minutes rest db cleaned

/-- `cleanup_stale_worktrees`: list all records, sweep them, return the
count of successful removals and (in the model) the registry afterwards. -/
def cleanup_stale_worktrees (env : VcsEnv) (db : Registry)
    (now stale_threshold_minutes : Int) : Nat × Registry :=
  cleanupLoop env now stale_threshold_minutes (list_worktrees db) db 0

/-- Whether the external teardown of `wt` (worktree removal with `--force`
followed by branch deletion) would fully succeed under `env` — the success
condition of one `remove_worktree(agent, force=True)` call of the sweep. -/
def removeOkFor (env : VcsEnv) (wt : WorktreeInfo) : Bool :=
  (env.rem_worktree wt.path true == .ok) &&
    (env.delete_branch wt.branch == .ok)

/-- A record the sweep actually removes: stale and its teardown succeeds. -/
def staleRemoved (env : VcsEnv) (now stale_threshold_minutes : Int)
    (wt : WorktreeInfo) : Bool :=
  isStale now stale_threshold_minutes wt && removeOkFor env wt

/-! ## Concrete fixtures for witnesses and counterexamples -/

/-- An environment in which every external git call succeeds and every
dry-run merge is clean (exit 0, empty report). -/
def envAllOk : VcsEnv :=
  { add_worktree := fun _ _ _ => .ok, rem_worktree := fun _ _ => .ok,
    delete_branch := fun _ => .ok, merge_tree := fun _ _ => (0, "") }

/-- An environment whose dry-run merge returns the given report. -/
def envMerge (returncode : Int) (stdout : String) : VcsEnv :=
  { envAllOk with merge_tree := fun _ _ => (returncode, stdout) }

/-- An environment in which `git worktree add` fails with `diag`. -/
def envAddFail (diag : String) : VcsEnv :=
  { envAllOk with add_worktree := fun _ _ _ => .fail diag }

/-- An environment in which `git worktree remove` fails with `diag`. -/
def envRemFail (diag : String) : VcsEnv :=
  { envAllOk with rem_worktree := fun _ _ => .fail diag }

/-- An environment in which `git worktree remove` fails on one specific
worktree path and succeeds elsewhere. -/
def envRemFailAt (badPath diag : String) : VcsEnv :=
  { envAllOk with
    rem_worktree := fun p _ => if p == badPath then .fail diag else .ok }

/-- A sample registry record for agent `"a1"`. -/
def sampleRec : WorktreeInfo :=
  { agent_id := "a1", path := "/w/worktree-a1", branch := "agent-a1",
    created_at := 0, last_active := 10, status := "active" }

/-- A one-row sample registry. -/
def sampleDb : Registry := [sampleRec]

/-- A two-row sample registry (both records long inactive). -/
def sampleDb2 : Registry :=
  [sampleRec,
   { agent_id := "a2", path := "/w/worktree-a2", branch := "agent-a2",
     created_at := 5, last_active := 5, status := "active" }]

/-- The row `create_worktree` inserts on success (the `INSERT` values:
derived path and branch, `created_at = last_active = now`,
`status = "active"`). -/
def newWorktreeRecord (worktree_base_dir agent_id : String) (now : Int) :
    WorktreeInfo :=
  { agent_id := agent_id,
    path := worktree_base_dir ++ "/worktree-" ++ agent_id,
    branch := "agent-" ++ agent_id,
    created_at := now, last_active := now, status := "active" }

/-! ## Helper lemmas about the registry operations -/

theorem get_worktree_eq_none_iff {db : Registry} {a : String} :
    get_worktree db a = none ↔ ∀ r ∈ db, r.agent_id ≠ a := by
  simp [get_worktree, List.find?_eq_none]

theorem get_worktree_mem {db : Registry} {a : String} {wt : WorktreeInfo}
    (h : get_worktree db a = some wt) : wt ∈ db ∧ wt.agent_id = a := by
  refine ⟨List.mem_of_find?_eq_some h, ?_⟩
  have := List.find?_some h
  simpa using this

theorem get_worktree_filter_ne {db : Registry} {a b : String} (h : b ≠ a) :
    get_worktree (db.filter (fun r => !(r.agent_id == a))) b =
      get_worktree db b := by
  induction db with
  | nil => rfl
  | cons r rest ih =>
    unfold get_worktree at ih ⊢
    by_cases hr : r.agent_id = a
    · have hrb : (r.agent_id == b) = false := by
        rw [hr]; exact beq_eq_false_iff_ne.mpr (Ne.symm h)
      have hra : (r.agent_id == a) = true := by rw [hr]; exact beq_self_eq_true a
      simpa [List.filter_cons, List.find?_cons, hra, hrb] using ih
    · have hra : (r.agent_id == a) = false := beq_eq_false_iff_ne.mpr hr
      by_cases hb : r.agent_id = b
      · have hrb : (r.agent_id == b) = true := by
          rw [hb]; exact beq_self_eq_true b
        simp [List.filter_cons, List.find?_cons, hra, hrb]
      · have hrb : (r.agent_id == b) = false := beq_eq_false_iff_ne.mpr hb
        simpa [List.filter_cons, List.find?_cons, hra, hrb] using ih

theorem update_last_active_of_absent {db : Registry} {now : Int} {a : String}
    (h : get_worktree db a = none) : update_last_active db now a = db := by
  have hall := get_worktree_eq_none_iff.mp h
  induction db with
  | nil => rfl
  | cons r rest ih =>
    have hra : ¬((r.agent_id == a) = true) := by
      simp only [beq_iff_eq]
      exact hall r (List.mem_cons_self r rest)
    have ih' := ih
      (get_worktree_eq_none_iff.mpr (fun s hs => hall s (List.mem_cons_of_mem r hs)))
      (fun s hs => hall s (List.mem_cons_of_mem r hs))
    unfold update_last_active at ih' ⊢
    rw [List.map_cons, if_neg hra, ih']

theorem get_worktree_update {db : Registry} {now : Int} {a : String}
    {wt : WorktreeInfo} (h : get_worktree db a = some wt) :
    get_worktree (update_last_active db now a) a =
      some { wt with last_active := now } := by
  induction db with
  | nil => exact absurd h (by simp [get_worktree])
  | cons r rest ih =>
    unfold get_worktree at h ⊢
    unfold update_last_active
    rw [List.map_cons]
    by_cases hra : (r.agent_id == a) = true
    · rw [@List.find?_cons_of_pos _ (fun r => r.agent_id == a) r rest hra] at h
      injection h with h
      subst h
      rw [if_pos hra]
      exact List.find?_cons_of_pos _ hra
    · rw [@List.find?_cons_of_neg _ (fun r => r.agent_id == a) r rest hra] at h
      have htail := ih h
      unfold get_worktree update_last_active at htail
      rw [if_neg hra]
      rw [@List.find?_cons_of_neg _ (fun r => r.agent_id == a) r _ hra]
      exact htail

theorem get_worktree_of_nodup_mem {db : Registry}
    (hn : (db.map WorktreeInfo.agent_id).Nodup) {wt : WorktreeInfo}
    (hm : wt ∈ db) : get_worktree db wt.agent_id = some wt := by
  induction db with
  | nil => cases hm
  | cons r rest ih =>
    rcases List.mem_cons.mp hm with hr | hr
    · subst hr
      simp [get_worktree, List.find?_cons]
    · obtain ⟨hhead, hn'⟩ :
          r.agent_id ∉ rest.map WorktreeInfo.agent_id ∧
            (rest.map WorktreeInfo.agent_id).Nodup := by
        simpa [List.map_cons, List.nodup_cons] using hn
      have hne : (r.agent_id == wt.agent_id) = false := by
        simp only [beq_eq_false_iff_ne, ne_eq]
        intro hEq
        exact hhead (hEq ▸ List.mem_map_of_mem WorktreeInfo.agent_id hr)
      simpa [get_worktree, List.find?_cons, hne] using ih hn' hr

theorem get_worktree_append {db : Registry} {a : String}
    (hno : get_worktree db a = none) (rec : WorktreeInfo)
    (hrec : rec.agent_id = a) :
    get_worktree (db ++ [rec]) a = some rec := by
  unfold get_worktree at hno ⊢
  rw [List.find?_append, hno, Option.none_or]
  exact List.find?_cons_of_pos _ (by rw [hrec]; exact beq_self_eq_true a)

theorem string_beq_symm (a b : String) : (a == b) = (b == a) := by
  by_cases h : a = b
  · rw [h]
  · rw [beq_eq_false_iff_ne.mpr h, beq_eq_false_iff_ne.mpr (Ne.symm h)]

theorem remove_worktree_spec_ok {env : VcsEnv} {db : Registry}
    {wt : WorktreeInfo} (h : get_worktree db wt.agent_id = some wt)
    (hrw : env.rem_worktree wt.path true = .ok)
    (hdb : env.delete_branch wt.branch = .ok) :
    remove_worktree env db wt.agent_id true =
      (.ok (), db.filter (fun r => !(r.agent_id == wt.agent_id)),
       [.removeWorktreeCall wt.path true, .deleteBranchCall wt.branch]) := by
  simp [remove_worktree, h, hrw, hdb]

theorem cleanupLoop_spec (env : VcsEnv) (now T : Int) (L : List WorktreeInfo) :
    ∀ (db : Registry) (c : Nat),
      (∀ wt ∈ L, get_worktree db wt.agent_id = some wt) →
      (L.map WorktreeInfo.agent_id).Nodup →
      cleanupLoop env now T L db c =
        (c + L.countP (staleRemoved env now T),
         db.filter (fun r => !(L.any (fun wt =>
           staleRemoved env now T wt && (wt.agent_id == r.agent_id))))) := by
  induction L with
  | nil =>
    intro db c _ _
    simp [cleanupLoop]
  | cons wt rest ih =>
    intro db c hmem hnd
    have hwt : get_worktree db wt.agent_id = some wt :=
      hmem wt (List.mem_cons_self wt rest)
    obtain ⟨hhead, hnd'⟩ :
        wt.agent_id ∉ rest.map WorktreeInfo.agent_id ∧
          (rest.map WorktreeInfo.agent_id).Nodup := by
      simpa [List.map_cons, List.nodup_cons] using hnd
    have hrestne : ∀ s ∈ rest, s.agent_id ≠ wt.agent_id := by
      intro s hs hEq
      exact hhead (hEq ▸ List.mem_map_of_mem WorktreeInfo.agent_id hs)
    by_cases hst : isStale now T wt = true
    · rcases hrw : env.rem_worktree wt.path true with _ | d
      · rcases hdbr : env.delete_branch wt.branch with _ | d2
        · -- head is stale and its teardown succeeds
          have hsr : staleRemoved env now T wt = true := by
            simp [staleRemoved, removeOkFor, hst, hrw, hdbr]
          have hrm := remove_worktree_spec_ok hwt hrw hdbr
          have hstep : cleanupLoop env now T (wt :: rest) db c =
              cleanupLoop env now T rest
                (db.filter (fun r => !(r.agent_id == wt.agent_id))) (c + 1) := by
            simp [cleanupLoop, hst, hrm]
          have hmem' : ∀ s ∈ rest,
              get_worktree (db.filter (fun r => !(r.agent_id == wt.agent_id)))
                s.agent_id = some s := by
            intro s hs
            rw [get_worktree_filter_ne (hrestne s hs)]
            exact hmem s (List.mem_cons_of_mem wt hs)
          rw [hstep, ih _ _ hmem' hnd']
          refine Prod.ext ?_ ?_
          · show c + 1 + rest.countP (staleRemoved env now T) =
              c + (wt :: rest).countP (staleRemoved env now T)
            rw [List.countP_cons, if_pos hsr]
            omega
          · show (db.filter (fun r => !(r.agent_id == wt.agent_id))).filter
                (fun r => !(rest.any (fun s =>
                  staleRemoved env now T s && (s.agent_id == r.agent_id)))) =
              db.filter (fun r => !((wt :: rest).any (fun s =>
                staleRemoved env now T s && (s.agent_id == r.agent_id))))
            rw [List.filter_filter]
            refine List.filter_congr ?_
            intro r _
            rw [List.any_cons, hsr, Bool.true_and, Bool.not_or,
              string_beq_symm wt.agent_id r.agent_id, Bool.and_comm]
        · -- head is stale but branch deletion fails: record survives
          have hsr : staleRemoved env now T wt = false := by
            simp [staleRemoved, removeOkFor, hrw, hdbr]
          have hstep : cleanupLoop env now T (wt :: rest) db c =
              cleanupLoop env now T rest db c := by
            simp [cleanupLoop, remove_worktree, hst, hwt, hrw, hdbr]
          rw [hstep, ih _ _ (fun s hs => hmem s (List.mem_cons_of_mem wt hs)) hnd']
          refine Prod.ext ?_ ?_
          · show c + rest.countP (staleRemoved env now T) =
              c + (wt :: rest).countP (staleRemoved env now T)
            rw [List.countP_cons, if_neg (by rw [hsr]; exact Bool.false_ne_true)]
            omega
          · refine List.filter_congr ?_
            intro r _
            rw [List.any_cons, hsr, Bool.false_and, Bool.false_or]
      · -- head is stale but worktree removal fails: record survives
        have hsr : staleRemoved env now T wt = false := by
          simp [staleRemoved, removeOkFor, hrw]
        have hstep : cleanupLoop env now T (wt :: rest) db c =
            cleanupLoop env now T rest db c := by
          simp [cleanupLoop, remove_worktree, hst, hwt, hrw]
        rw [hstep, ih _ _ (fun s hs => hmem s (List.mem_cons_of_mem wt hs)) hnd']
        refine Prod.ext ?_ ?_
        · show c + rest.countP (staleRemoved env now T) =
            c + (wt :: rest).countP (staleRemoved env now T)
          rw [List.countP_cons, if_neg (by rw [hsr]; exact Bool.false_ne_true)]
          omega
        · refine List.filter_congr ?_
          intro r _
          rw [List.any_cons, hsr, Bool.false_and, Bool.false_or]
    · -- head is not stale: untouched
      have hsr : staleRemoved env now T wt = false := by
        simp only [staleRemoved, Bool.and_eq_false_iff]
        left
        exact Bool.not_eq_true _ ▸ (by simpa using hst)
      have hstep : cleanupLoop env now T (wt :: rest) db c =
          cleanupLoop env now T rest db c := by
        simp [cleanupLoop, hst]
      rw [hstep, ih _ _ (fun s hs => hmem s (List.mem_cons_of_mem wt hs)) hnd']
      refine Prod.ext ?_ ?_
      · show c + rest.countP (staleRemoved env now T) =
          c + (wt :: rest).countP (staleRemoved env now T)
        rw [List.countP_cons, if_neg (by rw [hsr]; exact Bool.false_ne_true)]
        omega
      · refine List.filter_congr ?_
        intro r _
        rw [List.any_cons, hsr, Bool.false_and, Bool.false_or]

theorem cleanup_stale_worktrees_eq (env : VcsEnv) (db : Registry) (now T : Int)
    (hnd : (db.map WorktreeInfo.agent_id).Nodup) :
    cleanup_stale_worktrees env db now T =
      (db.countP (staleRemoved env now T),
       db.filter (fun r => !(staleRemoved env now T r))) := by
  have hperm : (list_worktrees db).Perm db := List.perm_insertionSort _ db
  have hndL : ((list_worktrees db).map WorktreeInfo.agent_id).Nodup :=
    ((hperm.map WorktreeInfo.agent_id).nodup_iff).mpr hnd
  have hmem : ∀ wt ∈ list_worktrees db,
      get_worktree db wt.agent_id = some wt := by
    intro wt hw
    exact get_worktree_of_nodup_mem hnd (hperm.mem_iff.mp hw)
  unfold cleanup_stale_worktrees
  rw [cleanupLoop_spec env now T (list_worktrees db) db 0 hmem hndL]
  refine Prod.ext ?_ ?_
  · show 0 + (list_worktrees db).countP (staleRemoved env now T) =
      db.countP (staleRemoved env now T)
    rw [List.Perm.countP_eq _ hperm]
    omega
  · refine List.filter_congr ?_
    intro r hr
    have hany : (list_worktrees db).any (fun wt =>
        staleRemoved env now T wt && (wt.agent_id == r.agent_id)) =
        staleRemoved env now T r := by
      cases hsr : staleRemoved env now T r with
      | true =>
        apply List.any_eq_true.mpr
        refine ⟨r, hperm.mem_iff.mpr hr, ?_⟩
        rw [hsr, beq_self_eq_true, Bool.and_self]
      | false =>
        apply List.any_eq_false.mpr
        intro wt hw hwtp
        obtain ⟨hwsr, hweq⟩ : staleRemoved env now T wt = true ∧
            (wt.agent_id == r.agent_id) = true := by simpa using hwtp
        have : wt = r := List.inj_on_of_nodup_map hnd
          (hperm.mem_iff.mp hw) hr (beq_iff_eq.mp hweq)
        rw [this, hsr] at hwsr
        exact Bool.false_ne_true hwsr
    rw [hany]

theorem mem_parseConflicts {returncode : Int} {stdout : String}
    {cf : ConflictFile} (h : cf ∈ parseConflicts returncode stdout) :
    cf.conflict_type = "content" ∧ cf.our_version = none ∧
      cf.their_version = none ∧ cf.base_version = none := by
  unfold parseConflicts at h
  by_cases hg : hasConflictSignal returncode stdout
  · rw [if_pos hg] at h
    obtain ⟨line, _, hline⟩ := List.mem_filterMap.mp h
    unfold changedInBothFile at hline
    by_cases hs : strStartsWith line "changed in both"
    · rw [if_pos hs] at hline
      by_cases hl : (pySplit line).length ≥ 4
      · rw [if_pos hl] at hline
        injection hline with hline
        subst hline
        exact ⟨rfl, rfl, rfl, rfl⟩
      · rw [if_neg hl] at hline
        cases hline
    · rw [if_neg hs] at hline
      cases hline
  · rw [if_neg hg] at h
    cases h

/-! ## Claim theorems -/

/-- Claim C1, counterexample: the report `"changed in both base.txt"` with
exit status 0 contains exactly one line beginning with `"changed in both"`
whose last whitespace-delimited token is the file path `"base.txt"`, yet
`detect_conflicts` returns no conflict at all, because the classification
gate (`returncode != 0 or "conflict" in stdout.lower()`) does not fire:
the phrase `"changed in both"` does not contain `"conflict"`. -/
theorem detect_conflicts_needs_signal_cex :
    (pySplitLines "changed in both base.txt").filter
        (fun l => strStartsWith l "changed in both") =
      ["changed in both base.txt"] ∧
    (pySplit "changed in both base.txt").getLastD "" = "base.txt" ∧
    detect_conflicts (envMerge 0 "changed in both base.txt") sampleDb "a1"
        "main" =
      (.ok [], [.mergeTreeCall "main" "agent-a1"]) :=
  ⟨by decide, by decide, by rfl⟩

/-- Claim C1 (corrected): for an agent with an existing record, if the
classification gate fires (nonzero exit status or the report contains
`"conflict"` case-insensitively) and the dry-run report contains exactly one
line that begins with `"changed in both"` and has at least four
whitespace-delimited tokens, the last being `p`, then `detect_conflicts`
returns exactly one `ConflictFile` with path `p` and conflict type
`"content"`. -/
theorem detect_conflicts_single_changed_in_both (env : VcsEnv) (db : Registry)
    (agent_id target_branch : String) (wt : WorktreeInfo) (rc : Int)
    (out p : String)
    (hget : get_worktree db agent_id = some wt)
    (hmerge : env.merge_tree target_branch wt.branch = (rc, out))
    (hgate : hasConflictSignal rc out = true)
    (hone : (pySplitLines out).filterMap changedInBothFile =
      [{ path := p, conflict_type := "content" }]) :
    detect_conflicts env db agent_id target_branch =
      (.ok [{ path := p, conflict_type := "content" }],
       [.mergeTreeCall target_branch wt.branch]) := by
  simp [detect_conflicts, hget, hmerge, parseConflicts, hgate, hone]

/-- Witness for C1's theorem: the same single-line report, now with exit
status 1, yields exactly the one `ConflictFile` for `"base.txt"`. -/
theorem detect_conflicts_single_changed_in_both_witness :
    detect_conflicts (envMerge 1 "changed in both base.txt") sampleDb "a1"
        "main" =
      (.ok [{ path := "base.txt", conflict_type := "content" }],
       [.mergeTreeCall "main" "agent-a1"]) :=
  detect_conflicts_single_changed_in_both (envMerge 1 "changed in both base.txt")
    sampleDb "a1" "main" sampleRec 1 "changed in both base.txt" "base.txt"
    (by rfl) (by rfl) (by decide) (by decide)

/-- Claim C4 (confirmed): for an agent with an existing record,
`detect_conflicts` classifies the dry-run report as conflicting exactly when
the tool signals nonzero completion or the lowercased report contains
`"conflict"`; when the gate is off (in particular for a clean report such as
the one produced when the branch is identical to the target) it returns the
empty sequence, and a nonempty result implies the gate fired. -/
theorem detect_conflicts_clean_iff_no_signal (env : VcsEnv) (db : Registry)
    (agent_id target_branch : String) (wt : WorktreeInfo) (rc : Int)
    (out : String)
    (hget : get_worktree db agent_id = some wt)
    (hmerge : env.merge_tree target_branch wt.branch = (rc, out)) :
    (hasConflictSignal rc out = false →
      detect_conflicts env db agent_id target_branch =
        (.ok [], [.mergeTreeCall target_branch wt.branch])) ∧
    (∀ cs calls,
      detect_conflicts env db agent_id target_branch = (.ok cs, calls) →
      cs ≠ [] → hasConflictSignal rc out = true) := by
  have hclean : hasConflictSignal rc out = false →
      detect_conflicts env db agent_id target_branch =
        (.ok [], [.mergeTreeCall target_branch wt.branch]) := by
    intro hg
    simp [detect_conflicts, hget, hmerge, parseConflicts, hg]
  refine ⟨hclean, ?_⟩
  intro cs calls hd hne
  cases hg : hasConflictSignal rc out with
  | true => rfl
  | false =>
    rw [hclean hg] at hd
    injection hd with h1 h2
    injection h1 with h1
    exact absurd h1.symm hne

/-- Witness for C4's theorem: a clean dry-run (exit 0, empty report), as for
a branch identical to the target, yields the empty conflict list. -/
theorem detect_conflicts_clean_iff_no_signal_witness :
    detect_conflicts (envMerge 0 "") sampleDb "a1" "main" =
      (.ok [], [.mergeTreeCall "main" "agent-a1"]) :=
  (detect_conflicts_clean_iff_no_signal (envMerge 0 "") sampleDb "a1" "main"
    sampleRec 0 "" (by rfl) (by rfl)).1 (by decide)

/-- Claim C10 (confirmed): every `ConflictFile` ever returned by
`detect_conflicts` has `conflict_type = "content"` and all three version
fields absent (`none`); no code path produces a rename or delete conflict or
populates the version identifiers. -/
theorem detect_conflicts_only_content_conflicts (env : VcsEnv) (db : Registry)
    (agent_id target_branch : String) (cs : List ConflictFile)
    (calls : List ExtCall) (cf : ConflictFile)
    (hd : detect_conflicts env db agent_id target_branch = (.ok cs, calls))
    (hm : cf ∈ cs) :
    cf.conflict_type = "content" ∧ cf.our_version = none ∧
      cf.their_version = none ∧ cf.base_version = none := by
  unfold detect_conflicts at hd
  cases hg : get_worktree db agent_id with
  | none =>
    rw [hg] at hd
    exact absurd hd (by simp)
  | some wt =>
    rw [hg] at hd
    injection hd with h1 h2
    injection h1 with h1
    exact mem_parseConflicts (h1 ▸ hm)

/-- Witness for C10's theorem, at a report that does produce a conflict. -/
theorem detect_conflicts_only_content_conflicts_witness :
    ({ path := "base.txt", conflict_type := "content" } :
        ConflictFile).conflict_type = "content" ∧
    ({ path := "base.txt", conflict_type := "content" } :
        ConflictFile).our_version = none ∧
    ({ path := "base.txt", conflict_type := "content" } :
        ConflictFile).their_version = none ∧
    ({ path := "base.txt", conflict_type := "content" } :
        ConflictFile).base_version = none :=
  detect_conflicts_only_content_conflicts
    (envMerge 1 "changed in both base.txt") sampleDb "a1" "main"
    [{ path := "base.txt", conflict_type := "content" }]
    [.mergeTreeCall "main" "agent-a1"]
    { path := "base.txt", conflict_type := "content" }
    (by rfl) (by decide)

/-- Claim C9 (confirmed): `remove_worktree` on an agent with no record fails
with the not-found error, performs no external git call, and leaves the
registry unchanged. -/
theorem remove_worktree_unknown_agent (env : VcsEnv) (db : Registry)
    (agent_id : String) (force : Bool)
    (hno : get_worktree db agent_id = none) :
    remove_worktree env db agent_id force =
      (.error (.notFound agent_id), db, []) := by
  simp [remove_worktree, hno]

/-- Witness for C9's theorem. -/
theorem remove_worktree_unknown_agent_witness :
    remove_worktree envAllOk sampleDb "ghost" true =
      (.error (.notFound "ghost"), sampleDb, []) :=
  remove_worktree_unknown_agent envAllOk sampleDb "ghost" true (by rfl)

/-- Claim C5 (confirmed): when the external `git worktree add` step fails,
`create_worktree` surfaces the failure as a VCS-operation error carrying the
tool's diagnostic text, and no registry write occurs — the registry after
the failed call is the registry before it. -/
theorem create_worktree_vcs_failure_no_write (env : VcsEnv)
    (worktree_base_dir : String) (db : Registry) (now : Int)
    (agent_id base_branch diag : String)
    (hno : get_worktree db agent_id = none)
    (hfail : env.add_worktree (worktree_base_dir ++ "/worktree-" ++ agent_id)
        ("agent-" ++ agent_id) base_branch = .fail diag) :
    create_worktree env worktree_base_dir db now agent_id base_branch =
      (.error (.vcsError diag), db,
       [.addWorktreeCall (worktree_base_dir ++ "/worktree-" ++ agent_id)
          ("agent-" ++ agent_id) base_branch]) := by
  simp [create_worktree, hno, hfail]

/-- Witness for C5's theorem. -/
theorem create_worktree_vcs_failure_no_write_witness :
    create_worktree (envAddFail "fatal: invalid reference: main") "/w"
        sampleDb 50 "a2" "main" =
      (.error (.vcsError "fatal: invalid reference: main"), sampleDb,
       [.addWorktreeCall "/w/worktree-a2" "agent-a2" "main"]) :=
  create_worktree_vcs_failure_no_write (envAddFail "fatal: invalid reference: main")
    "/w" sampleDb 50 "a2" "main" "fatal: invalid reference: main"
    (by rfl) (by rfl)

/-- Claim C7 (confirmed): after a successful `create_worktree` for an agent,
a second `create_worktree` call with the same `agent_id` (any environment,
time or base branch) fails with the already-exists error (the source's
`ValueError`, the spec's `AlreadyExistsError`), performs no external git
invocation, and leaves the registry unchanged. -/
theorem create_worktree_twice_already_exists (env env2 : VcsEnv)
    (worktree_base_dir : String) (db : Registry) (now now2 : Int)
    (agent_id base_branch base_branch2 : String)
    (hno : get_worktree db agent_id = none)
    (hok : env.add_worktree (worktree_base_dir ++ "/worktree-" ++ agent_id)
        ("agent-" ++ agent_id) base_branch = .ok) :
    create_worktree env worktree_base_dir db now agent_id base_branch =
      (.ok (worktree_base_dir ++ "/worktree-" ++ agent_id),
       db ++ [newWorktreeRecord worktree_base_dir agent_id now],
       [.addWorktreeCall (worktree_base_dir ++ "/worktree-" ++ agent_id)
          ("agent-" ++ agent_id) base_branch]) ∧
    create_worktree env2 worktree_base_dir
        (db ++ [newWorktreeRecord worktree_base_dir agent_id now]) now2
        agent_id base_branch2 =
      (.error (.alreadyExists agent_id
          (worktree_base_dir ++ "/worktree-" ++ agent_id)),
       db ++ [newWorktreeRecord worktree_base_dir agent_id now], []) := by
  constructor
  · simp [create_worktree, hno, hok, newWorktreeRecord]
  · have hsome := get_worktree_append hno
      (newWorktreeRecord worktree_base_dir agent_id now) rfl
    simp only [create_worktree, hsome]
    rfl

/-- Witness for C7's theorem. -/
theorem create_worktree_twice_already_exists_witness :
    create_worktree envAllOk "/w" [] 7 "a1" "main" =
      (.ok "/w/worktree-a1", [newWorktreeRecord "/w" "a1" 7],
       [.addWorktreeCall "/w/worktree-a1" "agent-a1" "main"]) ∧
    create_worktree envAllOk "/w" [newWorktreeRecord "/w" "a1" 7] 9 "a1"
        "main" =
      (.error (.alreadyExists "a1" "/w/worktree-a1"),
       [newWorktreeRecord "/w" "a1" 7], []) :=
  create_worktree_twice_already_exists envAllOk envAllOk "/w" [] 7 9 "a1"
    "main" "main" (by rfl) (by rfl)

/-- Claim C8 (confirmed): for an agent with no existing record, a successful
`create_worktree` returns `worktree_base_dir ++ "/worktree-" ++ agent_id`,
and the registry then holds (and `get`/`list` return) a record with that
path, branch `"agent-" ++ agent_id`, status `"active"`, and
`created_at = last_active`. -/
theorem create_worktree_success_record (env : VcsEnv)
    (worktree_base_dir : String) (db : Registry) (now : Int)
    (agent_id base_branch : String)
    (hno : get_worktree db agent_id = none)
    (hok : env.add_worktree (worktree_base_dir ++ "/worktree-" ++ agent_id)
        ("agent-" ++ agent_id) base_branch = .ok) :
    create_worktree env worktree_base_dir db now agent_id base_branch =
      (.ok (worktree_base_dir ++ "/worktree-" ++ agent_id),
       db ++ [newWorktreeRecord worktree_base_dir agent_id now],
       [.addWorktreeCall (worktree_base_dir ++ "/worktree-" ++ agent_id)
          ("agent-" ++ agent_id) base_branch]) ∧
    get_worktree (db ++ [newWorktreeRecord worktree_base_dir agent_id now])
        agent_id = some (newWorktreeRecord worktree_base_dir agent_id now) ∧
    newWorktreeRecord worktree_base_dir agent_id now ∈
      list_worktrees (db ++ [newWorktreeRecord worktree_base_dir agent_id now]) ∧
    (newWorktreeRecord worktree_base_dir agent_id now).path =
      worktree_base_dir ++ "/worktree-" ++ agent_id ∧
    (newWorktreeRecord worktree_base_dir agent_id now).branch =
      "agent-" ++ agent_id ∧
    (newWorktreeRecord worktree_base_dir agent_id now).status = "active" ∧
    (newWorktreeRecord worktree_base_dir agent_id now).created_at =
      (newWorktreeRecord worktree_base_dir agent_id now).last_active := by
  refine ⟨by simp [create_worktree, hno, hok, newWorktreeRecord],
    get_worktree_append hno _ rfl, ?_, rfl, rfl, rfl, rfl⟩
  exact (List.perm_insertionSort _ _).mem_iff.mpr
    (List.mem_append.mpr (Or.inr (List.mem_singleton.mpr rfl)))

/-- Witness for C8's theorem. -/
theorem create_worktree_success_record_witness :
    create_worktree envAllOk "/w" [] 7 "a1" "main" =
      (.ok "/w/worktree-a1", [] ++ [newWorktreeRecord "/w" "a1" 7],
       [.addWorktreeCall "/w/worktree-a1" "agent-a1" "main"]) ∧
    get_worktree ([] ++ [newWorktreeRecord "/w" "a1" 7]) "a1" =
      some (newWorktreeRecord "/w" "a1" 7) ∧
    newWorktreeRecord "/w" "a1" 7 ∈
      list_worktrees ([] ++ [newWorktreeRecord "/w" "a1" 7]) ∧
    (newWorktreeRecord "/w" "a1" 7).path = "/w/worktree-a1" ∧
    (newWorktreeRecord "/w" "a1" 7).branch = "agent-a1" ∧
    (newWorktreeRecord "/w" "a1" 7).status = "active" ∧
    (newWorktreeRecord "/w" "a1" 7).created_at =
      (newWorktreeRecord "/w" "a1" 7).last_active :=
  create_worktree_success_record envAllOk "/w" [] 7 "a1" "main"
    (by rfl) (by rfl)

/-- Claim C6 (confirmed): for an agent with an existing record,
`remove_worktree` deletes the registry record exactly when the external
teardown succeeds: on success `get` afterwards is absent and `list` no
longer contains the agent; when `git worktree remove` (or the subsequent
`git branch -D`) fails, a VCS-operation error carrying the diagnostic
propagates and the record is left intact. -/
theorem remove_worktree_teardown_spec (env : VcsEnv) (db : Registry)
    (agent_id : String) (force : Bool) (wt : WorktreeInfo)
    (hget : get_worktree db agent_id = some wt) :
    (env.rem_worktree wt.path force = .ok →
      env.delete_branch wt.branch = .ok →
      remove_worktree env db agent_id force =
        (.ok (), db.filter (fun r => !(r.agent_id == agent_id)),
         [.removeWorktreeCall wt.path force, .deleteBranchCall wt.branch]) ∧
      get_worktree (db.filter (fun r => !(r.agent_id == agent_id)))
        agent_id = none ∧
      (∀ r ∈ list_worktrees (db.filter (fun r => !(r.agent_id == agent_id))),
        r.agent_id ≠ agent_id)) ∧
    (∀ diag, env.rem_worktree wt.path force = .fail diag →
      remove_worktree env db agent_id force =
        (.error (.vcsError diag), db, [.removeWorktreeCall wt.path force])) ∧
    (∀ diag, env.rem_worktree wt.path force = .ok →
      env.delete_branch wt.branch = .fail diag →
      remove_worktree env db agent_id force =
        (.error (.vcsError diag), db,
         [.removeWorktreeCall wt.path force,
          .deleteBranchCall wt.branch])) := by
  refine ⟨?_, ?_, ?_⟩
  · intro hrw hdb
    refine ⟨by simp [remove_worktree, hget, hrw, hdb], ?_, ?_⟩
    · apply List.find?_eq_none.mpr
      intro x hx
      have h2 := (List.mem_filter.mp hx).2
      simp only [Bool.not_eq_true'] at h2
      simp [h2]
    · intro r hr
      have hmem := (List.perm_insertionSort _ _).mem_iff.mp hr
      have h2 := (List.mem_filter.mp hmem).2
      simp only [Bool.not_eq_true'] at h2
      exact beq_eq_false_iff_ne.mp h2
  · intro diag hrw
    simp [remove_worktree, hget, hrw]
  · intro diag hrw hdb
    simp [remove_worktree, hget, hrw, hdb]

/-- Witness for C6's theorem, exercising the success branch. -/
theorem remove_worktree_teardown_spec_witness :
    remove_worktree envAllOk sampleDb "a1" false =
      (.ok (), sampleDb.filter (fun r => !(r.agent_id == "a1")),
       [.removeWorktreeCall "/w/worktree-a1" false,
        .deleteBranchCall "agent-a1"]) ∧
    get_worktree (sampleDb.filter (fun r => !(r.agent_id == "a1"))) "a1" =
      none ∧
    (∀ r ∈ list_worktrees (sampleDb.filter (fun r => !(r.agent_id == "a1"))),
      r.agent_id ≠ "a1") :=
  (remove_worktree_teardown_spec envAllOk sampleDb "a1" false sampleRec
    (by rfl)).1 (by rfl) (by rfl)

/-- Claim C3, counterexample: `update_last_active` does not always strictly
increase the stored timestamp — it overwrites it with the call time, so a
call whose clock reads 5 against a stored `last_active` of 10 *decreases*
the timestamp (the code has no monotonicity guard). -/
theorem update_last_active_can_decrease_cex :
    get_worktree sampleDb "a1" = some sampleRec ∧
    sampleRec.last_active = 10 ∧
    get_worktree (update_last_active sampleDb 5 "a1") "a1" =
      some { sampleRec with last_active := 5 } ∧
    ((5 : Int) < 10) := by
  refine ⟨by rfl, rfl, by rfl, by decide⟩

/-- Claim C3 (corrected): `update_last_active` overwrites the record's
`last_active` with the call time, so each call strictly increases the stored
timestamp whenever the call time is later than the stored value (which the
claim's unconditional wording assumed); calling it on an unknown agent does
not raise and leaves the registry completely unchanged. -/
theorem update_last_active_sets_call_time (db : Registry) (now : Int)
    (agent_id : String) :
    (∀ wt, get_worktree db agent_id = some wt →
      get_worktree (update_last_active db now agent_id) agent_id =
        some { wt with last_active := now } ∧
      (wt.last_active < now →
        ∀ wt', get_worktree (update_last_active db now agent_id) agent_id =
          some wt' → wt.last_active < wt'.last_active)) ∧
    (get_worktree db agent_id = none →
      update_last_active db now agent_id = db) := by
  constructor
  · intro wt hwt
    have h1 := @get_worktree_update db now agent_id wt hwt
    refine ⟨h1, ?_⟩
    intro hlt wt' hwt'
    rw [h1] at hwt'
    injection hwt' with hwt'
    rw [← hwt']
    exact hlt
  · exact update_last_active_of_absent

/-- Witness for C3's theorem: updating at a later time sets the timestamp,
and touching an unknown agent is a no-op. -/
theorem update_last_active_sets_call_time_witness :
    get_worktree (update_last_active sampleDb 20 "a1") "a1" =
      some { sampleRec with last_active := 20 } ∧
    update_last_active [] 20 "ghost" = [] := by
  constructor
  · exact ((update_last_active_sets_call_time sampleDb 20 "a1").1 sampleRec
      (by rfl)).1
  · exact (update_last_active_sets_call_time [] 20 "ghost").2 (by rfl)

/-- Claim C2 (confirmed): on a registry with pairwise-distinct agent ids
(the table's primary-key invariant), `cleanup_stale_worktrees` removes
exactly the records that are stale (inactive strictly longer than the
threshold) *and* whose forced teardown succeeds, leaves every other record
unchanged — in particular a stale record whose removal fails survives, and
the sweep continues past that failure — and returns the number of
successful removals, not the number attempted. -/
theorem cleanup_stale_worktrees_correct (env : VcsEnv) (db : Registry)
    (now T : Int) (hnd : (db.map WorktreeInfo.agent_id).Nodup) :
    (cleanup_stale_worktrees env db now T).1 =
        db.countP (staleRemoved env now T) ∧
    (cleanup_stale_worktrees env db now T).2 =
        db.filter (fun r => !(staleRemoved env now T r)) ∧
    (∀ r ∈ db, isStale now T r = false →
        r ∈ (cleanup_stale_worktrees env db now T).2) := by
  have h := cleanup_stale_worktrees_eq env db now T hnd
  refine ⟨by rw [h], by rw [h], ?_⟩
  intro r hr hstale
  rw [h]
  apply List.mem_filter.mpr
  refine ⟨hr, ?_⟩
  simp [staleRemoved, hstale]

/-- Witness for C2's theorem: both records are stale, the teardown of
`"a1"` fails while that of `"a2"` succeeds, so exactly one removal is
counted and `"a1"`'s record survives. -/
theorem cleanup_stale_worktrees_correct_witness :
    (sampleDb2.map WorktreeInfo.agent_id).Nodup ∧
    ((cleanup_stale_worktrees (envRemFailAt "/w/worktree-a1" "locked")
        sampleDb2 100000 60).1 =
      sampleDb2.countP
        (staleRemoved (envRemFailAt "/w/worktree-a1" "locked") 100000 60) ∧
    (cleanup_stale_worktrees (envRemFailAt "/w/worktree-a1" "locked")
        sampleDb2 100000 60).2 =
      sampleDb2.filter (fun r =>
        !(staleRemoved (envRemFailAt "/w/worktree-a1" "locked") 100000 60 r)) ∧
    (∀ r ∈ sampleDb2, isStale 100000 60 r = false →
      r ∈ (cleanup_stale_worktrees (envRemFailAt "/w/worktree-a1" "locked")
        sampleDb2 100000 60).2)) :=
  ⟨by decide, cleanup_stale_worktrees_correct
    (envRemFailAt "/w/worktree-a1" "locked") sampleDb2 100000 60 (by decide)⟩
